import Mathlib

/-!
Verification of the SARTHI rail-corridor scheduling core.

Shallow embedding of:
  * `bhopal_itarsi_data/dispatcher.py`   (class GreedyDispatcher)
  * `bhopal_itarsi_data/optimizer.py`    (class AdvancedOptimizer)
  * `bhopal_itarsi_data/whatif_simulator.py` (class WhatIfSimulator)
  * the end-of-leg platform handling of `bhopal_itarsi_data/simulate.py` (function train)

Simulation clock values (`env.now`) and hold durations are modelled as
rationals (Python floats); CP-SAT departure variables are integers.
Python `dict` lookups become association-list lookups, `None` becomes
`Option.none`, and an operation that can raise an exception returns
`Option` (with `none` for the raising run).
-/

/-- Direction of travel, the `direction` column of the trains table:
`DOWN` traverses segments in increasing index, `UP` in decreasing index. -/
inductive TrainDir
  | UP
  | DOWN
deriving DecidableEq, Repr

/-- One of the three line keys of a track's `resources` dict. -/
inductive LineId
  | up_line
  | down_line
  | central_line
deriving DecidableEq, Repr

/-- Snapshot of a `simpy.PriorityResource`: current holder count and capacity.
The dispatcher only reads `count` and `capacity`. -/
structure LineRes where
  count : ℕ
  capacity : ℕ
deriving DecidableEq, Repr

/-- One row of `tracks_df` as the dispatcher sees it: the `track_id` column
plus the three line resources stored in the `resources` column. -/
structure TrackRec where
  track_id : ℕ
  up_line : LineRes
  down_line : LineRes
  central_line : LineRes
deriving DecidableEq, Repr

/-- One row of `trains_df`, restricted to the fields `GreedyDispatcher` reads. -/
structure TrainRec where
  train_id : ℕ
  direction : TrainDir
  priority_level : ℤ
deriving DecidableEq, Repr

/-- One value of the optimizer's target-schedule dict as the dispatcher reads
it: `.get('target_departure')` may be absent, hence an `Option`. -/
structure TargetEntry where
  target_departure : Option ℚ
deriving DecidableEq, Repr

/-- Result of `GreedyDispatcher.decide`: one of the dicts
`{'decision': 'hold', 'duration': d}`, `{'decision': 'proceed', 'line': l}`,
`{'decision': 'wait'}`. -/
inductive DispatchDecision
  | hold (duration : ℚ)
  | proceed (line : LineId)
  | wait
deriving DecidableEq, Repr

/-- State of a `GreedyDispatcher`: the three data frames it keeps and the two
mutable dicts `track_occupancy` (track id -> occupying train id or `None`)
and `target_schedule` (train id -> schedule entry). -/
structure GreedyDispatcher where
  tracks : List TrackRec
  trains : List TrainRec
  track_occupancy : List (ℕ × Option ℕ)
  target_schedule : List (ℕ × TargetEntry)

/-- Python `self.track_occupancy.get(track_id)`: `None` both when the key is
absent and when the stored value is `None`. -/
def occGet (occ : List (ℕ × Option ℕ)) (tid : ℕ) : Option ℕ :=
  match occ.lookup tid with
  | some v => v
  | none => none

/-- Rule 1 of `GreedyDispatcher.decide` (dispatcher.py lines 21-29): if the
train has a target-schedule entry and `target_departure` is truthy (non-zero,
non-`None`) and still in the future, return the hold duration
`target_departure - env.now`, else fall through. -/
def optimizerOverride (sched : List (ℕ × TargetEntry)) (now : ℚ) (train_id : ℕ) :
    Option ℚ :=
  match sched.lookup train_id with
  | none => none
  | some entry =>
    match entry.target_departure with
    | none => none
    | some td => if td ≠ 0 ∧ now < td then some (td - now) else none

/-- Body of `GreedyDispatcher._look_ahead_for_high_priority` after the previous
track id has been fetched: `track_occupancy.get(prev_track_id)` must be truthy
(a non-`None`, non-zero train id), the id must match a row of `trains_df`
(otherwise the `IndexError` is caught and `False` returned), and that row's
`priority_level` must be at most 2. -/
def occupiedByHighPriority (d : GreedyDispatcher) (prev_track_id : ℕ) : Bool :=
  match occGet d.track_occupancy prev_track_id with
  | none => false
  | some occId =>
    if occId = 0 then false
    else
      match d.trains.find? (fun tr => tr.train_id = occId) with
      | none => false
      | some tr => tr.priority_level ≤ 2

/-- `GreedyDispatcher._look_ahead_for_high_priority` (dispatcher.py lines
77-95). The previous segment is index `i-1` for `DOWN` (only when `i > 0`)
and `i+1` for `UP` (only when `i+1 < len(tracks)`); otherwise `False`.
`iloc[i-1]` on an out-of-range index raises outside the `try` block, modelled
as `none`. -/
def GreedyDispatcher.lookAheadForHighPriority (d : GreedyDispatcher) (i : ℕ)
    (dir : TrainDir) : Option Bool :=
  match dir with
  | .DOWN =>
    if 0 < i then
      (d.tracks.get? (i - 1)).map (fun t => occupiedByHighPriority d t.track_id)
    else
      some false
  | .UP =>
    if i + 1 < d.tracks.length then
      (d.tracks.get? (i + 1)).map (fun t => occupiedByHighPriority d t.track_id)
    else
      some false

/-- The line resource matching `f'{direction.lower()}_line'` of a track row. -/
def dedicatedRes (t : TrackRec) : TrainDir → LineRes
  | .UP => t.up_line
  | .DOWN => t.down_line

/-- The line key matching `f'{direction.lower()}_line'`. -/
def dedicatedName : TrainDir → LineId
  | .UP => LineId.up_line
  | .DOWN => LineId.down_line

/-- Rule 3 of `GreedyDispatcher.decide` (dispatcher.py lines 40-75):
priority-aware line selection over the dedicated and central line of the
current track. -/
def lineSelection (track : TrackRec) (train : TrainRec) : DispatchDecision :=
  let ded := dedicatedRes track train.direction
  let cen := track.central_line
  if ded.count < ded.capacity ∧ cen.count < cen.capacity then
    if train.priority_level ≤ 2 then
      DispatchDecision.proceed (dedicatedName train.direction)
    else
      DispatchDecision.proceed LineId.central_line
  else if ded.count < ded.capacity then
    DispatchDecision.proceed (dedicatedName train.direction)
  else if cen.count < cen.capacity then
    DispatchDecision.proceed LineId.central_line
  else
    DispatchDecision.wait

/-- `GreedyDispatcher.decide` (dispatcher.py lines 15-75). `none` models a
raised exception (`iloc` on an out-of-range track index); every in-range call
returns `some` decision. -/
def GreedyDispatcher.decide (d : GreedyDispatcher) (now : ℚ) (train : TrainRec)
    (i : ℕ) : Option DispatchDecision :=
  match optimizerOverride d.target_schedule now train.train_id with
  | some dur => some (DispatchDecision.hold dur)
  | none =>
    if 2 < train.priority_level then
      match d.lookAheadForHighPriority i train.direction with
      | none => none
      | some true => some (DispatchDecision.hold 10)
      | some false => (d.tracks.get? i).map (fun track => lineSelection track train)
    else
      (d.tracks.get? i).map (fun track => lineSelection track train)

/-- Python `int()` applied to a float/rational: truncation toward zero. -/
def pyInt (q : ℚ) : ℤ :=
  q.num.tdiv q.den

/-- One element of the `active_trains` list handed to
`AdvancedOptimizer.optimize`, with the fields the optimizer reads.
`priority_level` is `train.get('priority_level', train.get('priority', 3))`
already resolved; `next_departure_time` and `scheduled_departure` keep their
`.get` optionality (`scheduled_departure` defaults to 0). -/
structure OptTrain where
  train_id : ℕ
  priority_level : ℚ
  speed_profile_kph : ℚ
  next_departure_time : Option ℚ
  scheduled_departure : ℚ
deriving DecidableEq, Repr

/-- A disruption event dict as read by
`AdvancedOptimizer._add_disruption_constraints`: `type`, `track_id`,
`start_time` (default 0) and `end_time` (default infinity, hence `Option`
with `none` for the unbounded default). -/
structure Disruption where
  dtype : String
  track_id : ℕ
  start_time : ℚ
  end_time : Option ℚ
  description : String
deriving DecidableEq, Repr

/-- One value of the dict returned by `AdvancedOptimizer._extract_solution`. -/
structure PlanEntry where
  target_departure : ℤ
  dynamic_priority : ℚ
  confidence_score : ℚ
  constraints_satisfied : Bool
deriving DecidableEq, Repr

/-- One record of `optimization_history` (the wall-clock `solve_time`, solver
`status` code and `system_state` dict are real-time/solver-internal values and
are not part of the embedded state). -/
structure HistoryEntry where
  timestamp : ℚ
  trains_count : ℕ
  schedule : List (ℕ × PlanEntry)
deriving DecidableEq, Repr

/-- State of an `AdvancedOptimizer`: the track ids of `tracks_df` plus the
scalar configuration set in `__init__` and the mutable
`optimization_history`. -/
structure OptimizerState where
  tracks : List ℕ
  time_horizon_minutes : ℚ
  solver_timeout_seconds : ℚ
  minimum_headway : ℤ
  maximum_delay_tolerance : ℤ
  capacity_utilization_threshold : ℚ
  optimization_history : List HistoryEntry
deriving DecidableEq, Repr

/-- `AdvancedOptimizer.__init__` with its constant configuration
(`minimum_headway = 5`, `maximum_delay_tolerance = 30`,
`capacity_utilization_threshold = 0.85`, empty history). -/
def AdvancedOptimizer.init (tracks : List ℕ) (time_horizon_minutes : ℚ := 30)
    (solver_timeout_seconds : ℚ := 30) : OptimizerState :=
  { tracks := tracks
    time_horizon_minutes := time_horizon_minutes
    solver_timeout_seconds := solver_timeout_seconds
    minimum_headway := 5
    maximum_delay_tolerance := 30
    capacity_utilization_threshold := 17 / 20
    optimization_history := [] }

/-- `AdvancedOptimizer._calculate_dynamic_priority`: the
`RandomForestRegressor` is constructed but never fitted, so `predict` raises
and the `except` branch returns `float(base_priority)`. -/
def dynamicPriority (t : OptTrain) : ℚ :=
  t.priority_level

/-- The `trains_in_horizon` filter of `AdvancedOptimizer.optimize` (optimizer.py
lines 108-112): keep the active trains whose
`train.get('next_departure_time', current_time)` is at most
`current_time + time_horizon_minutes`. -/
def trainsInHorizon (time_horizon_minutes now : ℚ) (active : List OptTrain) :
    List OptTrain :=
  active.filter (fun t => decide (t.next_departure_time.getD now ≤ now + time_horizon_minutes))

/-- A candidate CP-SAT assignment: integer departure variable per train id,
boolean track-usage variable per (train id, track id), and the fresh
`disruption_active_{train}_{track}` booleans created inside
`_add_disruption_constraints`. -/
structure CpAssignment where
  departure : ℕ → ℤ
  usage : ℕ → ℕ → Bool
  enf : ℕ → ℕ → Bool

/-- Domains of the departure variables
(`model.NewIntVar(int(current_time), int(horizon_end_time), ...)`). -/
def VarBoundsSat (lo hi : ℤ) (hz : List OptTrain) (σ : CpAssignment) : Prop :=
  ∀ t ∈ hz, lo ≤ σ.departure t.train_id ∧ σ.departure t.train_id ≤ hi

/-- The constraints `AdvancedOptimizer._add_headway_constraints` (optimizer.py
lines 193-213) attempts to add: for each unordered pair of trains, each
ordering of the two departure variables would enforce the minimum gap in that
direction. The code hands `OnlyEnforceIf` the `BoundedLinearExpression`
`departure_1 >= departure_2`, which CP-SAT rejects with a TypeError (only
Boolean literals are accepted), so for any actual pair the model build raises
instead of adding these constraints (see `AdvancedOptimizer.optimize`); on a
horizon with fewer than two trains the pair loop never runs and this
predicate is vacuously true. -/
def HeadwaySat (hw : ℤ) (hz : List OptTrain) (σ : CpAssignment) : Prop :=
  hz.Pairwise (fun t1 t2 =>
    (σ.departure t1.train_id ≥ σ.departure t2.train_id →
      σ.departure t1.train_id - σ.departure t2.train_id ≥ hw) ∧
    (σ.departure t2.train_id ≥ σ.departure t1.train_id →
      σ.departure t2.train_id - σ.departure t1.train_id ≥ hw))

/-- `AdvancedOptimizer._add_capacity_constraints` (optimizer.py lines 215-228):
for each track of `tracks_df`, the sum of the usage indicators over all trains
in the horizon is at most 1. -/
def CapacitySat (tracks : List ℕ) (hz : List OptTrain) (σ : CpAssignment) : Prop :=
  ∀ trk ∈ tracks, (hz.filter (fun t => σ.usage t.train_id trk)).length ≤ 1

/-- `AdvancedOptimizer._add_priority_constraints` (optimizer.py lines 230-243):
for each pair in iteration order, a strictly better dynamic priority forces a
departure no later than the other train's. -/
def PrioritySat (hz : List OptTrain) (σ : CpAssignment) : Prop :=
  hz.Pairwise (fun t1 t2 =>
    dynamicPriority t1 < dynamicPriority t2 →
      σ.departure t1.train_id ≤ σ.departure t2.train_id)

/-- `AdvancedOptimizer._add_disruption_constraints` (optimizer.py lines
245-262): for each `track_blocked` disruption and each train, the constraint
`usage == 0` is only enforced when the freshly created, otherwise
unconstrained literal `disruption_active_{train}_{track}` is true. The
disruption's `start_time` and `end_time` are read but never used. -/
def DisruptionSat (disruptions : List Disruption) (hz : List OptTrain)
    (σ : CpAssignment) : Prop :=
  ∀ dis ∈ disruptions, dis.dtype = "track_blocked" →
    ∀ t ∈ hz, σ.enf t.train_id dis.track_id = true →
      σ.usage t.train_id dis.track_id = false

/-- The constraint set of a completed model build over the trains in the
horizon (`_add_conflict_avoidance_constraints` adds nothing). The build only
completes without raising when the horizon holds fewer than two trains, where
the pairwise headway and priority components are vacuous; a CP-SAT solution
returned with status `OPTIMAL` or `FEASIBLE` satisfies exactly these
constraints. -/
def ModelSat (st : OptimizerState) (now : ℚ) (hz : List OptTrain)
    (disruptions : List Disruption) (σ : CpAssignment) : Prop :=
  VarBoundsSat (pyInt now) (pyInt (now + st.time_horizon_minutes)) hz σ ∧
  HeadwaySat st.minimum_headway hz σ ∧
  CapacitySat st.tracks hz σ ∧
  PrioritySat hz σ ∧
  DisruptionSat disruptions hz σ

instance (st : OptimizerState) (now : ℚ) (hz : List OptTrain)
    (disruptions : List Disruption) (σ : CpAssignment) :
    Decidable (ModelSat st now hz disruptions σ) := by
  unfold ModelSat VarBoundsSat HeadwaySat CapacitySat PrioritySat DisruptionSat
  infer_instance

/-- `AdvancedOptimizer.optimize` (optimizer.py lines 88-182). The result
`none` models a raised exception, in the order the build runs: with two or
more trains in the horizon, `_add_headway_constraints` calls `OnlyEnforceIf`
on the linear expression `departure_1 >= departure_2` and CP-SAT raises
TypeError; a `track_blocked` disruption whose `track_id` is not a key of the
per-train `track_usage` dict (i.e. not a track of `tracks_df`) raises
KeyError in `_add_disruption_constraints`; and a horizon train with
`scheduled_departure > 0` reaches `abs()` on a linear expression in
`_add_objective_function`, which raises NotImplementedError. An empty horizon
returns the empty dict before any constraint is built or history stored. On a
completed build the CP-SAT solve is modelled by the `solver` argument: `none`
when the solver ends with a status other than `OPTIMAL`/`FEASIBLE` (then
`_extract_solution` returns the empty schedule), `some (σ, isOpt)` when it
returns assignment `σ` with `isOpt` recording whether the status was
`OPTIMAL`; a history entry is appended and the extracted schedule maps each
horizon train to its departure value, dynamic priority, confidence
(0.9 optimal / 0.7 feasible) and `constraints_satisfied = True`. -/
def AdvancedOptimizer.optimize (st : OptimizerState) (now : ℚ)
    (active : List OptTrain) (disruptions : List Disruption)
    (solver : Option (CpAssignment × Bool)) :
    Option (List (ℕ × PlanEntry) × OptimizerState) :=
  let hz := trainsInHorizon st.time_horizon_minutes now active
  if hz.isEmpty then
    some ([], st)
  else if 2 ≤ hz.length then
    none
  else if disruptions.any (fun dis =>
      decide (dis.dtype = "track_blocked") && !(st.tracks.contains dis.track_id)) then
    none
  else if hz.any (fun t => decide (0 < t.scheduled_departure)) then
    none
  else
    let sched : List (ℕ × PlanEntry) :=
      match solver with
      | none => []
      | some (σ, isOpt) =>
        hz.map (fun t =>
          (t.train_id,
            { target_departure := σ.departure t.train_id
              dynamic_priority := dynamicPriority t
              confidence_score := if isOpt then 9 / 10 else 7 / 10
              constraints_satisfied := true }))
    some (sched,
      { st with
        optimization_history :=
          st.optimization_history ++ [⟨now, hz.length, sched⟩] })

/-- `AdvancedOptimizer.re_optimize_under_disruption` (optimizer.py lines
322-340): wrap the disruption in a singleton list (empty for a falsy event),
shrink `time_horizon_minutes` to `min(15, original)`, run `optimize`, then
restore the original horizon. There is no try/finally around the `optimize`
call: when it raises, the exception propagates (first component `none`) and
the optimizer object keeps the shrunk horizon (second component); only on a
normal return is the original horizon restored. -/
def AdvancedOptimizer.re_optimize_under_disruption (st : OptimizerState)
    (now : ℚ) (active : List OptTrain) (disruption_event : Option Disruption)
    (solver : Option (CpAssignment × Bool)) :
    Option (List (ℕ × PlanEntry)) × OptimizerState :=
  let disruption_events := disruption_event.toList
  let original_horizon := st.time_horizon_minutes
  let st1 := { st with time_horizon_minutes := min 15 original_horizon }
  match AdvancedOptimizer.optimize st1 now active disruption_events solver with
  | none => (none, st1)
  | some (sched, st2) =>
    (some sched, { st2 with time_horizon_minutes := original_horizon })

/-- One structured record of `Logger.simulation_log` (logger.py `log`). The
free-text `description` is abstracted to the one fact the metrics code
extracts from it: `held_for` is the number captured by
`re.search(r'held for (\d+\.?\d*) minutes', description)` (present exactly on
the hold messages written with that wording, absent otherwise). -/
structure LogEvent where
  timestamp : ℚ
  event_type : String
  item_id : String
  held_for : Option ℚ
deriving DecidableEq, Repr

/-- The `simulation_results` dict stored for a completed scenario by
`WhatIfSimulator.run_scenario` / `_run_scenario_simulation`. -/
structure ScenarioResults where
  simulation_log : List LogEvent
  final_time : ℚ
  total_trains : ℕ
deriving DecidableEq, Repr

/-- The dict returned by `WhatIfSimulator._calculate_scenario_metrics`. -/
structure ScenarioMetrics where
  average_delay : ℚ
  throughput : ℚ
  punctuality : ℚ
  total_trains : ℕ
  simulation_time : ℚ
deriving DecidableEq, Repr

/-- The comparison dict built by `WhatIfSimulator.compare_scenarios`
(the `recommendations` strings are presentation text derived from
`metrics`). -/
structure Comparison where
  scenarios : List String
  metrics : List (String × ScenarioMetrics)
deriving DecidableEq, Repr

/-- The `delays` list of `WhatIfSimulator._calculate_scenario_metrics`
(whatif_simulator.py lines 305-311): the durations parsed out of the
`TRAIN_HOLD` events of the log, in log order. -/
def holdDelays (log : List LogEvent) : List ℚ :=
  log.filterMap (fun e => if e.event_type = "TRAIN_HOLD" then e.held_for else none)

/-- `WhatIfSimulator._calculate_scenario_metrics` (whatif_simulator.py lines
300-330): average delay is the mean of the parsed hold durations (0 when there
are none), throughput is `total_trains / (final_time / 60)` (0 when
`final_time` is not positive), punctuality is the fraction of parsed hold
durations that are at most 5 (1.0 when there are none). -/
def calculate_scenario_metrics (results : ScenarioResults) : ScenarioMetrics :=
  let delays := holdDelays results.simulation_log
  let avg_delay : ℚ := if delays.isEmpty then 0 else delays.sum / delays.length
  let throughput : ℚ :=
    if 0 < results.final_time then
      (results.total_trains : ℚ) / (results.final_time / 60)
    else 0
  let on_time_trains := (delays.filter (fun d => decide (d ≤ 5))).length
  let punctuality : ℚ :=
    if delays.isEmpty then 1 else (on_time_trains : ℚ) / delays.length
  { average_delay := avg_delay
    throughput := throughput
    punctuality := punctuality
    total_trains := results.total_trains
    simulation_time := results.final_time }

/-- `WhatIfSimulator.compare_scenarios` (whatif_simulator.py lines 269-298),
over the `self.results` dict (one entry per completed scenario run). If any
requested name has no stored result the whole call raises
`ValueError(f"Scenarios not found: {missing}")`, modelled as
`Except.error missing`; otherwise it returns the comparison with the metrics
of every requested scenario. -/
def compare_scenarios (stored : List (String × ScenarioResults))
    (names : List String) : Except (List String) Comparison :=
  if names.all (fun n => (stored.lookup n).isSome) then
    Except.ok
      { scenarios := names
        metrics := names.filterMap (fun n =>
          (stored.lookup n).map (fun r => (n, calculate_scenario_metrics r))) }
  else
    Except.error (names.filter (fun n => (stored.lookup n).isNone))

/-- End of one leg of the per-train simulation process (simulate.py lines
71-75, identical in `WhatIfSimulator._train_process`, whatif_simulator.py
lines 261-267): after the 5-minute dwell, the `PLATFORM_RELEASED` event is
logged only when the current segment index is not the train's final one
(`len(tracks) - 1` for `DOWN`, `0` for `UP`), and then
`platform_resource.release(platform_req)` runs on the unconditional path.
Returns the advanced clock, the event types logged, and the platform resource
after the step. -/
def trainDwellAndRelease (now : ℚ) (direction : TrainDir) (i numTracks : ℕ)
    (platform : LineRes) : ℚ × List String × LineRes :=
  let stoppage_time : ℚ := 5
  let finalIndex := if direction = TrainDir.DOWN then numTracks - 1 else 0
  let logs := if i ≠ finalIndex then ["PLATFORM_RELEASED"] else []
  (now + stoppage_time, logs, { platform with count := platform.count - 1 })

/-- A track row whose three lines are all free (capacity 1, no holder). -/
def trackAllFree : TrackRec :=
  ⟨100, ⟨0, 1⟩, ⟨0, 1⟩, ⟨0, 1⟩⟩

/-- A second all-free track row, used as the segment behind a DOWN train. -/
def trackBehind : TrackRec :=
  ⟨101, ⟨0, 1⟩, ⟨0, 1⟩, ⟨0, 1⟩⟩

/-- Dispatcher whose target schedule holds train 5 until time 20. -/
def dispW3 : GreedyDispatcher :=
  ⟨[trackAllFree], [], [], [(5, ⟨some 20⟩)]⟩

/-- The priority-1 DOWN train with the target-schedule entry of `dispW3`. -/
def trainW3 : TrainRec :=
  ⟨5, TrainDir.DOWN, 1⟩

/-- Dispatcher with one all-free track, no occupancy and no target schedule. -/
def dispW4 : GreedyDispatcher :=
  ⟨[trackAllFree], [], [], []⟩

/-- A priority-1 DOWN train with no target-schedule entry. -/
def trainW4 : TrainRec :=
  ⟨7, TrainDir.DOWN, 1⟩

/-- Dispatcher where track 101 (index 0) is occupied by priority-1 train
12000 and the target schedule is empty. -/
def dispW5 : GreedyDispatcher :=
  ⟨[trackBehind, trackAllFree], [⟨12000, TrainDir.DOWN, 1⟩], [(101, some 12000)], []⟩

/-- A priority-3 DOWN train at segment index 1 behind train 12000. -/
def trainW5 : TrainRec :=
  ⟨12001, TrainDir.DOWN, 3⟩

/-- Dispatcher with one all-free track for the totality witness. -/
def dispW6 : GreedyDispatcher :=
  ⟨[⟨102, ⟨0, 1⟩, ⟨0, 1⟩, ⟨0, 1⟩⟩], [], [], []⟩

/-- A priority-3 UP train for the totality witness. -/
def trainW6 : TrainRec :=
  ⟨8, TrainDir.UP, 3⟩

/-- Optimizer over the single track 7 with the default configuration. -/
def optStW : OptimizerState :=
  AdvancedOptimizer.init [7]

/-- Active train 1, departing now, base priority 3. -/
def optTrainA : OptTrain :=
  ⟨1, 3, 60, some 0, 0⟩

/-- Active train 2, departing now, base priority 3. -/
def optTrainB : OptTrain :=
  ⟨2, 3, 60, some 0, 0⟩

/-- A CP-SAT assignment giving train 1 departure 0 and train 2 departure 5,
using no track. -/
def sigmaW1 : CpAssignment :=
  ⟨fun t => if t = 1 then 0 else 5, fun _ _ => false, fun _ _ => true⟩

/-- A `track_blocked` disruption on track 7 from time 0 to 100. -/
def blockedDisruption : Disruption :=
  ⟨"track_blocked", 7, 0, some 100, "Track 7 blocked for maintenance"⟩

/-- A CP-SAT assignment in which train 1 departs at 0 and uses every track,
with every `disruption_active` literal false. -/
def sigmaBlocked : CpAssignment :=
  ⟨fun _ => 0, fun _ _ => true, fun _ _ => false⟩

/-- Stored what-if results holding exactly one completed scenario. -/
def storedResultsW : List (String × ScenarioResults) :=
  [("baseline", ⟨[], 480, 4⟩)]

/-- A scenario result whose log has no TRAIN_HOLD events. -/
def resultsNoHolds : ScenarioResults :=
  ⟨[⟨0, "TRAIN_START", "12000", none⟩, ⟨3, "TRACK_ACQUIRED", "12000", none⟩], 480, 4⟩

/-- Helper: rule 3 of the dispatcher never returns a hold decision. -/
theorem lineSelection_ne_hold (track : TrackRec) (train : TrainRec) (q : ℚ) :
    lineSelection track train ≠ DispatchDecision.hold q := by
  unfold lineSelection
  dsimp only
  split_ifs <;> simp

/-- Helper: the look-ahead never raises for an in-range segment index. -/
theorem lookAhead_isSome (d : GreedyDispatcher) (i : ℕ) (dir : TrainDir)
    (h : i < d.tracks.length) :
    ∃ b, d.lookAheadForHighPriority i dir = some b := by
  unfold GreedyDispatcher.lookAheadForHighPriority
  cases dir with
  | DOWN =>
    by_cases h0 : 0 < i
    · have hlt : i - 1 < d.tracks.length := lt_of_le_of_lt (Nat.sub_le i 1) h
      have ht : d.tracks.get? (i - 1) = some (d.tracks.get ⟨i - 1, hlt⟩) :=
        List.get?_eq_get hlt
      exact ⟨occupiedByHighPriority d (d.tracks.get ⟨i - 1, hlt⟩).track_id,
        by rw [if_pos h0, ht]; rfl⟩
    · exact ⟨false, by rw [if_neg h0]⟩
  | UP =>
    by_cases h1 : i + 1 < d.tracks.length
    · have ht : d.tracks.get? (i + 1) = some (d.tracks.get ⟨i + 1, h1⟩) :=
        List.get?_eq_get h1
      exact ⟨occupiedByHighPriority d (d.tracks.get ⟨i + 1, h1⟩).track_id,
        by rw [if_pos h1, ht]; rfl⟩
    · exact ⟨false, by rw [if_neg h1]⟩

/-- Claim C3: whenever the train has a target-schedule entry whose target
departure lies strictly in the future of the (non-negative) current time,
`GreedyDispatcher.decide` returns a hold of exactly
`target_departure - now`, regardless of the segment index, occupancy and
line state — i.e. before the proactive-hold and line-selection rules. -/
theorem decide_optimizer_override (d : GreedyDispatcher) (now : ℚ)
    (train : TrainRec) (i : ℕ) (entry : TargetEntry) (td : ℚ)
    (hentry : d.target_schedule.lookup train.train_id = some entry)
    (htd : entry.target_departure = some td)
    (hnow : 0 ≤ now) (hfut : now < td) :
    d.decide now train i = some (DispatchDecision.hold (td - now)) := by
  have htd0 : td ≠ 0 := by
    intro h
    rw [h] at hfut
    exact absurd hfut (not_lt.2 hnow)
  have hov : optimizerOverride d.target_schedule now train.train_id = some (td - now) := by
    obtain ⟨otd⟩ := entry
    have h2 : otd = some td := htd
    subst h2
    unfold optimizerOverride
    rw [hentry]
    show (if td ≠ 0 ∧ now < td then some (td - now) else none) = some (td - now)
    rw [if_pos ⟨htd0, hfut⟩]
  unfold GreedyDispatcher.decide
  rw [hov]

/-- Witness for claim C3: train 5 with target departure 20 at time 3 is held
for 17 minutes. -/
theorem decide_optimizer_override_witness :
    dispW3.decide 3 trainW3 0 = some (DispatchDecision.hold (20 - 3)) :=
  decide_optimizer_override dispW3 3 trainW3 0 ⟨some 20⟩ 20 rfl rfl
    (by norm_num) (by norm_num)

/-- Claim C4: when neither the optimizer override nor the proactive hold
fires, line selection proceeds on the dedicated line for priority at most 2
when both lines are free, on the central line for lower priority, on
whichever single line is free otherwise, and waits when neither is free. -/
theorem decide_line_selection (d : GreedyDispatcher) (now : ℚ)
    (train : TrainRec) (i : ℕ) (track : TrackRec)
    (hov : optimizerOverride d.target_schedule now train.train_id = none)
    (hla : 2 < train.priority_level →
      d.lookAheadForHighPriority i train.direction = some false)
    (htrack : d.tracks.get? i = some track) :
    ((dedicatedRes track train.direction).count < (dedicatedRes track train.direction).capacity →
      track.central_line.count < track.central_line.capacity →
      train.priority_level ≤ 2 →
      d.decide now train i = some (DispatchDecision.proceed (dedicatedName train.direction))) ∧
    ((dedicatedRes track train.direction).count < (dedicatedRes track train.direction).capacity →
      track.central_line.count < track.central_line.capacity →
      2 < train.priority_level →
      d.decide now train i = some (DispatchDecision.proceed LineId.central_line)) ∧
    ((dedicatedRes track train.direction).count < (dedicatedRes track train.direction).capacity →
      ¬ track.central_line.count < track.central_line.capacity →
      d.decide now train i = some (DispatchDecision.proceed (dedicatedName train.direction))) ∧
    (¬ (dedicatedRes track train.direction).count < (dedicatedRes track train.direction).capacity →
      track.central_line.count < track.central_line.capacity →
      d.decide now train i = some (DispatchDecision.proceed LineId.central_line)) ∧
    (¬ (dedicatedRes track train.direction).count < (dedicatedRes track train.direction).capacity →
      ¬ track.central_line.count < track.central_line.capacity →
      d.decide now train i = some DispatchDecision.wait) := by
  have hdec : d.decide now train i = some (lineSelection track train) := by
    unfold GreedyDispatcher.decide
    rw [hov]
    by_cases hp : 2 < train.priority_level
    · rw [if_pos hp, hla hp]
      show (d.tracks.get? i).map (fun track => lineSelection track train) = _
      rw [htrack]
      rfl
    · rw [if_neg hp, htrack]
      rfl
  refine ⟨?_, ?_, ?_, ?_, ?_⟩
  · intro hded hcen hpri
    rw [hdec]
    unfold lineSelection
    rw [if_pos ⟨hded, hcen⟩, if_pos hpri]
  · intro hded hcen hpri
    rw [hdec]
    unfold lineSelection
    rw [if_pos ⟨hded, hcen⟩, if_neg (not_le.2 hpri)]
  · intro hded hcen
    rw [hdec]
    unfold lineSelection
    rw [if_neg (fun h => hcen h.2), if_pos hded]
  · intro hded hcen
    rw [hdec]
    unfold lineSelection
    rw [if_neg (fun h => hded h.1), if_neg hded, if_pos hcen]
  · intro hded hcen
    rw [hdec]
    unfold lineSelection
    rw [if_neg (fun h => hded h.1), if_neg hded, if_neg hcen]

/-- Witness for claim C4: a priority-1 DOWN train with both lines free
proceeds on the dedicated down line. -/
theorem decide_line_selection_witness :
    dispW4.decide 0 trainW4 0 = some (DispatchDecision.proceed LineId.down_line) :=
  (decide_line_selection dispW4 0 trainW4 0 trackAllFree rfl
      (fun hp => absurd hp (by decide)) rfl).1
    (by decide) (by decide) (by decide)

/-- Claim C5: for a train of priority above 2 with no future optimizer
target, if the segment behind its direction of travel (index `i-1` for DOWN,
`i+1` for UP) is recorded in `track_occupancy` as occupied by a train of the
trains table with priority at most 2 (train ids are non-zero), `decide`
returns a hold of exactly 10; a DOWN train at index 0 or an UP train at the
last index never receives this hold. -/
theorem decide_proactive_hold (d : GreedyDispatcher) (now : ℚ)
    (train : TrainRec) (i : ℕ)
    (hov : optimizerOverride d.target_schedule now train.train_id = none)
    (hp : 2 < train.priority_level) :
    (∀ tk occId tr,
      train.direction = TrainDir.DOWN → 0 < i →
      d.tracks.get? (i - 1) = some tk →
      occGet d.track_occupancy tk.track_id = some occId → occId ≠ 0 →
      d.trains.find? (fun t => t.train_id = occId) = some tr →
      tr.priority_level ≤ 2 →
      d.decide now train i = some (DispatchDecision.hold 10)) ∧
    (∀ tk occId tr,
      train.direction = TrainDir.UP → i + 1 < d.tracks.length →
      d.tracks.get? (i + 1) = some tk →
      occGet d.track_occupancy tk.track_id = some occId → occId ≠ 0 →
      d.trains.find? (fun t => t.train_id = occId) = some tr →
      tr.priority_level ≤ 2 →
      d.decide now train i = some (DispatchDecision.hold 10)) ∧
    (train.direction = TrainDir.DOWN → i = 0 →
      ∀ q, d.decide now train i ≠ some (DispatchDecision.hold q)) ∧
    (train.direction = TrainDir.UP → i = d.tracks.length - 1 →
      ∀ q, d.decide now train i ≠ some (DispatchDecision.hold q)) := by
  have hocc : ∀ (tk : TrackRec) (occId : ℕ) (tr : TrainRec),
      occGet d.track_occupancy tk.track_id = some occId → occId ≠ 0 →
      d.trains.find? (fun t => t.train_id = occId) = some tr →
      tr.priority_level ≤ 2 →
      occupiedByHighPriority d tk.track_id = true := by
    intro tk occId tr h1 h2 h3 h4
    unfold occupiedByHighPriority
    rw [h1]
    show (if occId = 0 then (false : Bool)
        else
          match List.find? (fun tr => decide (tr.train_id = occId)) d.trains with
          | none => false
          | some tr => decide (tr.priority_level ≤ 2)) = true
    rw [if_neg h2, h3]
    exact decide_eq_true h4
  refine ⟨?_, ?_, ?_, ?_⟩
  · intro tk occId tr hdir h0 htk h1 h2 h3 h4
    have hla : d.lookAheadForHighPriority i train.direction = some true := by
      unfold GreedyDispatcher.lookAheadForHighPriority
      rw [hdir, if_pos h0, htk]
      show some (occupiedByHighPriority d tk.track_id) = some true
      rw [hocc tk occId tr h1 h2 h3 h4]
    unfold GreedyDispatcher.decide
    rw [hov, if_pos hp, hla]
  · intro tk occId tr hdir h0 htk h1 h2 h3 h4
    have hla : d.lookAheadForHighPriority i train.direction = some true := by
      unfold GreedyDispatcher.lookAheadForHighPriority
      rw [hdir, if_pos h0, htk]
      show some (occupiedByHighPriority d tk.track_id) = some true
      rw [hocc tk occId tr h1 h2 h3 h4]
    unfold GreedyDispatcher.decide
    rw [hov, if_pos hp, hla]
  · intro hdir h0 q
    have hla : d.lookAheadForHighPriority i train.direction = some false := by
      unfold GreedyDispatcher.lookAheadForHighPriority
      rw [hdir, if_neg (by rw [h0]; exact lt_irrefl 0)]
    unfold GreedyDispatcher.decide
    rw [hov, if_pos hp, hla]
    intro hcontra
    rcases hget : d.tracks.get? i with _ | tk
    · rw [hget] at hcontra
      exact Option.noConfusion hcontra
    · rw [hget] at hcontra
      exact lineSelection_ne_hold tk train q (Option.some.injEq _ _ ▸ hcontra)
  · intro hdir h0 q
    subst h0
    have hcond : ¬ (d.tracks.length - 1 + 1 < d.tracks.length) := by omega
    have hla : d.lookAheadForHighPriority (d.tracks.length - 1) train.direction
        = some false := by
      unfold GreedyDispatcher.lookAheadForHighPriority
      rw [hdir, if_neg hcond]
    unfold GreedyDispatcher.decide
    rw [hov, if_pos hp, hla]
    intro hcontra
    rcases hget : d.tracks.get? (d.tracks.length - 1) with _ | tk
    · rw [hget] at hcontra
      exact Option.noConfusion hcontra
    · rw [hget] at hcontra
      exact lineSelection_ne_hold tk train q (Option.some.injEq _ _ ▸ hcontra)

/-- Witness for claim C5: priority-3 DOWN train 12001 at index 1, with
priority-1 train 12000 recorded on the previous track 101, is held 10. -/
theorem decide_proactive_hold_witness :
    dispW5.decide 0 trainW5 1 = some (DispatchDecision.hold 10) :=
  (decide_proactive_hold dispW5 0 trainW5 1 rfl (by decide)).1
    trackBehind 12000 ⟨12000, TrainDir.DOWN, 1⟩ rfl (by decide) rfl rfl
    (by decide) (by decide) (by decide)

/-- Claim C6: for any dispatcher state, time, train record and in-range
segment index, `decide` returns exactly one decision, and it is a hold, a
proceed or a wait — no exception is raised. -/
theorem decide_total (d : GreedyDispatcher) (now : ℚ) (train : TrainRec)
    (i : ℕ) (h : i < d.tracks.length) :
    ∃ dec, d.decide now train i = some dec ∧
      ((∃ q, dec = DispatchDecision.hold q) ∨
       (∃ l, dec = DispatchDecision.proceed l) ∨
       dec = DispatchDecision.wait) := by
  have hshape : ∀ dec : DispatchDecision,
      (∃ q, dec = DispatchDecision.hold q) ∨
      (∃ l, dec = DispatchDecision.proceed l) ∨
      dec = DispatchDecision.wait := by
    intro dec
    cases dec with
    | hold q => exact Or.inl ⟨q, rfl⟩
    | proceed l => exact Or.inr (Or.inl ⟨l, rfl⟩)
    | wait => exact Or.inr (Or.inr rfl)
  have htrack : d.tracks.get? i = some (d.tracks.get ⟨i, h⟩) := List.get?_eq_get h
  unfold GreedyDispatcher.decide
  rcases hov : optimizerOverride d.target_schedule now train.train_id with _ | dur
  · by_cases hp : 2 < train.priority_level
    · obtain ⟨b, hla⟩ := lookAhead_isSome d i train.direction h
      rw [if_pos hp, hla]
      cases b with
      | true => exact ⟨DispatchDecision.hold 10, rfl, hshape _⟩
      | false =>
        refine ⟨lineSelection (d.tracks.get ⟨i, h⟩) train, ?_, hshape _⟩
        rw [htrack]
        rfl
    · rw [if_neg hp]
      refine ⟨lineSelection (d.tracks.get ⟨i, h⟩) train, ?_, hshape _⟩
      rw [htrack]
      rfl
  · exact ⟨DispatchDecision.hold dur, rfl, hshape _⟩

/-- Witness for claim C6: a concrete in-range call returns a decision. -/
theorem decide_total_witness :
    ∃ dec, dispW6.decide 0 trainW6 0 = some dec ∧
      ((∃ q, dec = DispatchDecision.hold q) ∨
       (∃ l, dec = DispatchDecision.proceed l) ∨
       dec = DispatchDecision.wait) :=
  decide_total dispW6 0 trainW6 0 (by decide)

/-- Helper: any optimize call whose horizon holds at least two trains raises
the headway TypeError, modelled as `none`. -/
theorem optimize_raises_on_pair (st : OptimizerState) (now : ℚ)
    (active : List OptTrain) (disruptions : List Disruption)
    (solver : Option (CpAssignment × Bool))
    (h : 2 ≤ (trainsInHorizon st.time_horizon_minutes now active).length) :
    AdvancedOptimizer.optimize st now active disruptions solver = none := by
  have hne : ¬ ((trainsInHorizon st.time_horizon_minutes now active).isEmpty = true) := by
    rw [List.isEmpty_iff]
    intro hE
    rw [hE] at h
    simp at h
  rw [AdvancedOptimizer.optimize.eq_def]
  dsimp only
  rw [if_neg hne, if_pos h]

/-- Claim C1 (code bug): with two trains in the optimization horizon,
`_add_headway_constraints` executes `OnlyEnforceIf` on the
`BoundedLinearExpression` `departure_1 >= departure_2`, which CP-SAT rejects
with a TypeError at model-build time, so `optimize` raises and never returns
a schedule assigning target departures to two or more trains — the claimed
headway disjunction is never enforced. -/
theorem optimize_headway_typeerror :
    2 ≤ (trainsInHorizon optStW.time_horizon_minutes 0
      [optTrainA, optTrainB]).length ∧
    ∀ solver, AdvancedOptimizer.optimize optStW 0 [optTrainA, optTrainB] []
      solver = none := by
  have hhz : trainsInHorizon optStW.time_horizon_minutes 0 [optTrainA, optTrainB]
      = [optTrainA, optTrainB] := by
    norm_num [trainsInHorizon, optStW, AdvancedOptimizer.init, optTrainA,
      optTrainB, List.filter]
  constructor
  · rw [hhz]
    decide
  · intro solver
    exact optimize_raises_on_pair optStW 0 [optTrainA, optTrainB] [] solver
      (by rw [hhz]; decide)

/-- Claim C2 (code bug): under an active `track_blocked` disruption on track
7, the constraint model built by `AdvancedOptimizer.optimize` admits a
solution in which train 1 uses the blocked track (`usage = 1`): the
`usage == 0` constraint is only half-reified behind a fresh unconstrained
literal, so nothing forces usage to 0, and the optimizer still extracts a
non-empty schedule from that solution. -/
theorem disruption_constraint_not_enforced :
    ModelSat optStW 0
      (trainsInHorizon optStW.time_horizon_minutes 0 [optTrainA])
      [blockedDisruption] sigmaBlocked ∧
    sigmaBlocked.usage 1 7 = true ∧
    (AdvancedOptimizer.optimize optStW 0 [optTrainA] [blockedDisruption]
      (some (sigmaBlocked, true))).map Prod.fst
      = some [(1, ⟨0, 3, 9 / 10, true⟩)] := by
  have hhz : trainsInHorizon optStW.time_horizon_minutes 0 [optTrainA]
      = [optTrainA] := by
    norm_num [trainsInHorizon, optStW, AdvancedOptimizer.init, optTrainA,
      List.filter]
  have hb30 : pyInt ((0 : ℚ) + optStW.time_horizon_minutes) = 30 := by
    norm_num [pyInt, optStW, AdvancedOptimizer.init]
  refine ⟨?_, rfl, ?_⟩
  · rw [ModelSat, hhz]
    refine ⟨?_, by unfold HeadwaySat; decide, by unfold CapacitySat; decide,
      by unfold PrioritySat; decide, by unfold DisruptionSat; decide⟩
    unfold VarBoundsSat
    rw [hb30]
    decide
  · rw [AdvancedOptimizer.optimize, hhz]
    norm_num [sigmaBlocked, dynamicPriority, optTrainA, blockedDisruption,
      optStW, AdvancedOptimizer.init]

/-- Claim C7 (code bug): `re_optimize_under_disruption` has no try/finally,
so when the inner `optimize` raises — here two active trains in the shrunk
horizon trigger the headway TypeError — the exception propagates and the
optimizer is left with `time_horizon_minutes = min(15, 30) = 15` instead of
the configured 30: the horizon is permanently mutated. -/
theorem re_optimize_mutates_horizon_on_raise :
    (AdvancedOptimizer.re_optimize_under_disruption optStW 0
      [optTrainA, optTrainB] none (some (sigmaW1, true))).1 = none ∧
    (AdvancedOptimizer.re_optimize_under_disruption optStW 0
      [optTrainA, optTrainB] none (some (sigmaW1, true))).2.time_horizon_minutes
      = 15 ∧
    optStW.time_horizon_minutes = 30 := by
  have hmin : min (15 : ℚ) optStW.time_horizon_minutes = 15 := by
    norm_num [optStW, AdvancedOptimizer.init, min_def]
  have hhz : trainsInHorizon (min (15 : ℚ) optStW.time_horizon_minutes) 0
      [optTrainA, optTrainB] = [optTrainA, optTrainB] := by
    rw [hmin]
    norm_num [trainsInHorizon, optTrainA, optTrainB, List.filter]
  have hopt : AdvancedOptimizer.optimize
      { optStW with time_horizon_minutes := min 15 optStW.time_horizon_minutes }
      0 [optTrainA, optTrainB] ((none : Option Disruption).toList)
      (some (sigmaW1, true)) = none := by
    apply optimize_raises_on_pair
    show 2 ≤ (trainsInHorizon (min (15 : ℚ) optStW.time_horizon_minutes) 0
      [optTrainA, optTrainB]).length
    rw [hhz]
    decide
  refine ⟨?_, ?_, rfl⟩
  · rw [AdvancedOptimizer.re_optimize_under_disruption]
    rw [hopt]
  · rw [AdvancedOptimizer.re_optimize_under_disruption]
    rw [hopt]
    show min (15 : ℚ) optStW.time_horizon_minutes = 15
    exact hmin

/-- Counterexample for claim C8: with only scenario "baseline" stored,
comparing ["baseline", "ghost"] raises (returns the error listing the missing
scenario) instead of reporting a partial comparison flagging "ghost". -/
theorem compare_scenarios_aborts_on_missing :
    compare_scenarios storedResultsW ["baseline", "ghost"]
      = Except.error ["ghost"] :=
  rfl

/-- Claim C8 (amended): whenever any requested scenario name has no stored
result, `compare_scenarios` raises a ValueError listing exactly the missing
names and produces no comparison at all. -/
theorem compare_scenarios_error_lists_missing
    (stored : List (String × ScenarioResults)) (names : List String)
    (n : String) (hn : n ∈ names)
    (hmiss : (stored.lookup n).isNone = true) :
    compare_scenarios stored names
      = Except.error (names.filter (fun m => (stored.lookup m).isNone)) ∧
    names.filter (fun m => (stored.lookup m).isNone) ≠ [] := by
  have hall : ¬ (names.all (fun m => (stored.lookup m).isSome) = true) := by
    intro h
    rw [List.all_eq_true] at h
    have hsome := h n hn
    rw [Option.isNone_iff_eq_none] at hmiss
    rw [hmiss] at hsome
    exact Bool.noConfusion hsome
  constructor
  · unfold compare_scenarios
    rw [if_neg hall]
  · intro hemp
    have hmem : n ∈ names.filter (fun m => (stored.lookup m).isNone) :=
      List.mem_filter.2 ⟨hn, hmiss⟩
    rw [hemp] at hmem
    exact absurd hmem (List.not_mem_nil n)

/-- Witness for the amended claim C8: the concrete missing scenario "ghost"
is reported in the error and the missing list is non-empty. -/
theorem compare_scenarios_error_lists_missing_witness :
    compare_scenarios storedResultsW ["baseline", "ghost"]
      = Except.error
          (["baseline", "ghost"].filter
            (fun m => (storedResultsW.lookup m).isNone)) ∧
    ["baseline", "ghost"].filter (fun m => (storedResultsW.lookup m).isNone)
      ≠ [] :=
  compare_scenarios_error_lists_missing storedResultsW ["baseline", "ghost"]
    "ghost" (by simp) rfl

/-- Counterexample for claim C9: a DOWN train at its final station (segment
index 2 of 3 tracks) still releases the platform (holder count drops from 1
to 0); only the PLATFORM_RELEASED log line is suppressed. -/
theorem platform_released_at_final_station :
    (trainDwellAndRelease 0 TrainDir.DOWN 2 3 ⟨1, 1⟩).2.2 = (⟨0, 1⟩ : LineRes) ∧
    (trainDwellAndRelease 0 TrainDir.DOWN 2 3 ⟨1, 1⟩).2.1 = [] :=
  ⟨rfl, rfl⟩

/-- Claim C9 (amended): after the dwell the platform resource is released
unconditionally — at the final station too; the final-station test only
suppresses the PLATFORM_RELEASED log entry. -/
theorem platform_release_unconditional (now : ℚ) (dir : TrainDir) (i n : ℕ)
    (p : LineRes) :
    (trainDwellAndRelease now dir i n p).2.2.count = p.count - 1 ∧
    (trainDwellAndRelease now dir i n p).2.2.capacity = p.capacity ∧
    ((trainDwellAndRelease now dir i n p).2.1 = [] ↔
      i = (if dir = TrainDir.DOWN then n - 1 else 0)) := by
  refine ⟨rfl, rfl, ?_⟩
  unfold trainDwellAndRelease
  dsimp only
  by_cases h : i = (if dir = TrainDir.DOWN then n - 1 else 0) <;> simp [h]

/-- Claim C10: a scenario log without TRAIN_HOLD events yields punctuality 1
and average delay 0, and punctuality is a function of the hold durations
parsed from TRAIN_HOLD entries alone. -/
theorem metrics_from_hold_durations :
    (∀ r : ScenarioResults,
      (∀ e ∈ r.simulation_log, e.event_type ≠ "TRAIN_HOLD") →
      (calculate_scenario_metrics r).punctuality = 1 ∧
      (calculate_scenario_metrics r).average_delay = 0) ∧
    (∀ r1 r2 : ScenarioResults,
      holdDelays r1.simulation_log = holdDelays r2.simulation_log →
      (calculate_scenario_metrics r1).punctuality
        = (calculate_scenario_metrics r2).punctuality) := by
  constructor
  · intro r h
    have hd : holdDelays r.simulation_log = [] := by
      rw [holdDelays, List.filterMap_eq_nil_iff]
      intro e he
      rw [if_neg (h e he)]
    simp [calculate_scenario_metrics, hd]
  · intro r1 r2 h
    simp only [calculate_scenario_metrics, h]

/-- Witness for claim C10: a concrete log with only non-hold events gives
punctuality 1 and average delay 0. -/
theorem metrics_from_hold_durations_witness :
    (calculate_scenario_metrics resultsNoHolds).punctuality = 1 ∧
    (calculate_scenario_metrics resultsNoHolds).average_delay = 0 :=
  metrics_from_hold_durations.1 resultsNoHolds (by decide)
